import Mathlib

/-!
# pgr_camera: the acquisition loop and the info emitter of `src/camera.cpp`

A shallow embedding of `Camera::sendInfo`, `Camera::feedImages`, the `Camera`
constructor and the `Camera` destructor.

* ROS messages are records; `uint32` fields are `Nat` (the code only copies and
  compares them, it does no arithmetic on them).
* A `double` is kept as its IEEE-754 binary64 bit pattern, so that the two tests
  `K[0] != 0.0` and `K[0] == 0.0` are decided on every value, NaN and the
  negative zero included.
* What the vendor SDK, the clock and the calibration store hand to the code is
  an explicit input of the function that embeds the code.
-/

namespace pgr_camera

/-! ## Doubles -/

/-- An IEEE-754 binary64 value, as its bit pattern (read modulo `2 ^ 64`). -/
structure Double where
  bits : Nat
deriving DecidableEq

namespace Double

/-- The 64 bits of the value. -/
def pattern (d : Double) : Nat := d.bits % 2 ^ 64

/-- All exponent bits set and a non-zero fraction. -/
def isNaN (d : Double) : Bool :=
  (d.pattern / 2 ^ 52) % 2 ^ 11 == 2047 && d.pattern % 2 ^ 52 != 0

/-- The C++ comparison `a == b` on doubles: false as soon as one side is a NaN,
the two zeros compare equal, otherwise the patterns are compared. -/
def opEq (a b : Double) : Bool :=
  !a.isNaN && !b.isNaN &&
    (a.pattern == b.pattern || (a.pattern % 2 ^ 63 == 0 && b.pattern % 2 ^ 63 == 0))

/-- The C++ comparison `a != b` on doubles, the negation of `a == b`. -/
def opNe (a b : Double) : Bool := !(opEq a b)

/-- The literal `0.0`. -/
def zero : Double := ⟨0⟩

end Double

/-! ## Messages -/

/-- A `ros::Time`. -/
structure Time where
  sec : Nat
  nsec : Nat
deriving DecidableEq

/-- A `std_msgs/Header`. -/
structure Header where
  seq : Nat
  stamp : Time
  frame_id : String
deriving DecidableEq

/-- A `sensor_msgs/Image`. -/
structure Image where
  header : Header
  height : Nat
  width : Nat
  encoding : String
  is_bigendian : Nat
  step : Nat
  data : List Nat
deriving DecidableEq

/-- A `sensor_msgs/RegionOfInterest`. -/
structure RegionOfInterest where
  x_offset : Nat
  y_offset : Nat
  height : Nat
  width : Nat
  do_rectify : Bool
deriving DecidableEq

/-- A `sensor_msgs/CameraInfo`. -/
structure CameraInfo where
  header : Header
  height : Nat
  width : Nat
  distortion_model : String
  D : List Double
  K : Fin 9 → Double
  R : Fin 9 → Double
  P : Fin 12 → Double
  binning_x : Nat
  binning_y : Nat
  roi : RegionOfInterest

/-- The message `new Image` builds: every field zero or empty. -/
def Image.new : Image :=
  { header := { seq := 0, stamp := { sec := 0, nsec := 0 }, frame_id := "" }
    height := 0
    width := 0
    encoding := ""
    is_bigendian := 0
    step := 0
    data := [] }

/-- The message `new CameraInfo()` builds: every field zero or empty. -/
def CameraInfo.new : CameraInfo :=
  { header := { seq := 0, stamp := { sec := 0, nsec := 0 }, frame_id := "" }
    height := 0
    width := 0
    distortion_model := ""
    D := []
    K := fun _ => Double.zero
    R := fun _ => Double.zero
    P := fun _ => Double.zero
    binning_x := 0
    binning_y := 0
    roi := { x_offset := 0, y_offset := 0, height := 0, width := 0, do_rectify := false } }

/-- The test `info->K[0] != 0.0` of `Camera::sendInfo`: a calibration is loaded. -/
def CameraInfo.populated (info : CameraInfo) : Bool :=
  Double.opNe (info.K 0) Double.zero

/-- The test `info->K[0] == 0.0` of `Camera::sendInfo`: no calibration. -/
def CameraInfo.unpopulated (info : CameraInfo) : Bool :=
  Double.opEq (info.K 0) Double.zero

/-! ## `Camera::sendInfo` -/

/-- Lines 193 to 204 of `Camera::sendInfo`: the two `if` statements that act on
the copy of the snapshot before it is stamped. -/
def resolveInfo (snapshot : CameraInfo) (image : Image) : CameraInfo :=
  let info := snapshot
  -- Throw out any CamInfo that's not calibrated to this camera mode
  let info :=
    if info.populated && (image.width != info.width || image.height != info.height) then
      CameraInfo.new
    else info
  -- If we don't have a calibration, set the image dimensions
  let info :=
    if info.unpopulated then
      { info with width := image.width, height := image.height }
    else info
  info

/-- The message `Camera::sendInfo` publishes. `frame` is the member `frame`,
`snapshot` is what `info_mgr.getCameraInfo()` returns. -/
def sendInfo (frame : String) (snapshot : CameraInfo) (image : Image) (time : Time) :
    CameraInfo :=
  let info := resolveInfo snapshot image
  let info := { info with header := { info.header with stamp := time } }
  let info := { info with header := { info.header with frame_id := frame } }
  info

/-! ## `Camera::feedImages` -/

/-- A `FlyCapture2::ErrorType`, as its integer value. -/
abbrev ErrorType := Int

/-- The value `FlyCapture2::PGRERROR_OK`. -/
def PGRERROR_OK : ErrorType := 0

/-- The value `sensor_msgs::image_encodings::RGB8`. -/
def RGB8 : String := "rgb8"

/-- A `FlyCapture2::Image` as far as the code reads it: `GetRows`, `GetCols`,
`GetStride`, and the `GetDataSize()` bytes behind `GetData()`, kept as a list of
that length (a size that fits the `int data_size` of the code). -/
structure FCImage where
  rows : Nat
  cols : Nat
  stride : Nat
  data : List Nat
deriving DecidableEq

/-- A default-constructed `FlyCapture2::Image`. -/
def FCImage.new : FCImage := { rows := 0, cols := 0, stride := 0, data := [] }

/-- What the outside hands to one pass of the `while (ok)` loop: the value of
the shared flag `ok` read by the loop test, the error of `RetrieveBuffer` and
the buffer it leaves in `rawImage`, the value of `ros::Time::now()`, the error
of `Convert` and the buffer it leaves in `convertedImage`, and the snapshot
`info_mgr.getCameraInfo()` returns in `sendInfo`. -/
structure Iteration where
  ok : Bool
  retrieveError : ErrorType
  retrieved : FCImage
  now : Time
  convertError : ErrorType
  converted : FCImage
  snapshot : CameraInfo

/-- What the worker thread owns across passes: the local counter `pair_id` and
the two buffers `rawImage` and `convertedImage` the vendor calls write into. -/
structure Worker where
  pair_id : Nat
  rawImage : FCImage
  convertedImage : FCImage
deriving DecidableEq

/-- A message handed to a publisher: `pub.publish` or `info_pub.publish`. -/
inductive Msg where
  | image (m : Image)
  | info (m : CameraInfo)

/-- The body of the `while (ok)` loop of `Camera::feedImages`, lines 217 to 258:
the worker after the pass and the messages published during it, in order. -/
def loopBody (frame : String) (env : Iteration) (w : Worker) : Worker × List Msg :=
  -- error = cam.RetrieveBuffer( &rawImage );
  let w := { w with rawImage := env.retrieved }
  let error := env.retrieveError
  if error != PGRERROR_OK then
    (w, [])
  else
    let capture_time := env.now
    -- error = rawImage.Convert( FlyCapture2::PIXEL_FORMAT_RGB, &convertedImage );
    let w := { w with convertedImage := env.converted }
    let error := env.convertError
    if error != PGRERROR_OK then
      (w, [])
    else
      let image := Image.new
      let image := { image with height := w.convertedImage.rows }
      let image := { image with width := w.convertedImage.cols }
      let image := { image with step := w.convertedImage.stride }
      let image := { image with encoding := RGB8 }
      let image := { image with header := { image.header with stamp := capture_time } }
      let image := { image with header := { image.header with seq := w.pair_id } }
      let image := { image with header := { image.header with frame_id := frame } }
      let image := { image with data := w.convertedImage.data }
      (w, [Msg.image image, Msg.info (sendInfo frame env.snapshot image capture_time)])

/-- The outcome of running the worker over a finite script of passes. -/
structure Run where
  worker : Worker
  published : List Msg
  exited : Bool

/-- The loop `while (ok) ...` over a script: one entry per evaluation of the
loop test. The worker leaves the loop (`exited`) at the first entry whose flag
reads false; a script that ends before that leaves the worker in the loop. -/
def feedImagesLoop (frame : String) : List Iteration → Worker → Run
  | [], w => { worker := w, published := [], exited := false }
  | env :: rest, w =>
    if env.ok then
      let step := loopBody frame env w
      let run := feedImagesLoop frame rest step.1
      { run with published := step.2 ++ run.published }
    else
      { worker := w, published := [], exited := true }

/-- The function `Camera::feedImages`: `unsigned int pair_id = 0`, then the loop. -/
def feedImages (frame : String) (script : List Iteration) : Run :=
  feedImagesLoop frame script
    { pair_id := 0, rawImage := FCImage.new, convertedImage := FCImage.new }

/-- The `header.seq` of the images of a list of published messages, in order. -/
def imageSeqs : List Msg → List Nat
  | [] => []
  | Msg.image m :: rest => m.header.seq :: imageSeqs rest
  | Msg.info _ :: rest => imageSeqs rest

/-! ## The constructor and the destructor -/

/-- What the constructor and the destructor do that is visible from outside. -/
inductive Action where
  | loadCameraInfo
  | advertise
  | GetCameraFromSerialNumber
  | Connect
  | GetCameraInfo
  | PrintCameraInfo
  | GetGigEImageSettingsInfo
  | SetGigEImageSettings
  | StartCapture
  | writeOk (value : Bool)
  | startThread
  | join
  | StopCapture
  | Disconnect
deriving DecidableEq

/-- The members of `Camera` the constructor and the destructor write, the state
of `image_thread`, and the log of the actions done so far. -/
structure Camera where
  width : Int
  height : Int
  fps : Int
  skip_frames : Int
  frame : String
  rotate : Bool
  serial : Int
  ok : Bool
  threadStarted : Bool
  threadJoined : Bool
  trace : List Action
deriving DecidableEq

/-- The parameter server as `pnode.getParam` sees it: a missing parameter leaves
the variable as it was. -/
structure Params where
  camera_info_url : Option String
  serial : Option Int
  fps : Option Int
  skip_frames : Option Int
  width : Option Int
  height : Option Int
  frame_id : Option String

/-- The errors the vendor calls of the constructor return, in call order. -/
structure VendorOutcomes where
  getCameraFromSerialNumber : ErrorType
  connect : ErrorType
  getCameraInfo : ErrorType
  getGigEImageSettingsInfo : ErrorType
  setGigEImageSettings : ErrorType
  startCapture : ErrorType

/-- Append an action to the log. -/
def Camera.log (c : Camera) (a : Action) : Camera :=
  { c with trace := c.trace ++ [a] }

/-- The constructor `Camera::Camera`, from members that hold `garbage` (they are
not initialised before the body runs). Each `if (error != PGRERROR_OK)` of the
source has an empty body. -/
def Camera.ctor (garbage : Camera) (params : Params) (o : VendorOutcomes) : Camera :=
  let c := { garbage with threadStarted := false, threadJoined := false, trace := [] }
  -- default config values
  let c := { c with width := 640, height := 480, fps := 10, frame := "camera", rotate := false }
  -- set up information manager
  let c := c.log Action.loadCameraInfo
  -- pull other configuration
  let c := { c with serial := params.serial.getD c.serial }
  let c := { c with fps := params.fps.getD c.fps }
  let c := { c with skip_frames := params.skip_frames.getD c.skip_frames }
  let c := { c with width := params.width.getD c.width }
  let c := { c with height := params.height.getD c.height }
  let c := { c with frame := params.frame_id.getD c.frame }
  -- advertise image streams and info streams
  let c := c.log Action.advertise
  let c := c.log Action.advertise
  -- initialize the cameras
  let c := c.log Action.GetCameraFromSerialNumber
  let c := c.log Action.Connect
  let error := o.connect
  let c := if error != PGRERROR_OK then c else c
  let c := c.log Action.GetCameraInfo
  let error := o.getCameraInfo
  let c := if error != PGRERROR_OK then c else c
  let c := c.log Action.PrintCameraInfo
  let c := c.log Action.GetGigEImageSettingsInfo
  let error := o.getGigEImageSettingsInfo
  let c := if error != PGRERROR_OK then c else c
  let c := c.log Action.SetGigEImageSettings
  let error := o.setGigEImageSettings
  let c := if error != PGRERROR_OK then c else c
  -- and turn on the streamer
  let c := c.log Action.StartCapture
  let error := o.startCapture
  let c := if error != PGRERROR_OK then c else c
  let c := { c with ok := true }.log (Action.writeOk true)
  let c := { c with threadStarted := true }.log Action.startThread
  c

/-- The destructor `Camera::~Camera`. -/
def Camera.dtor (c : Camera) : Camera :=
  let c := { c with ok := false }.log (Action.writeOk false)
  let c := { c with threadJoined := true }.log Action.join
  let c := c.log Action.StopCapture
  let c := c.log Action.Disconnect
  c

/-- The actions the destructor adds to the log of `c`. -/
def Camera.teardownActions (c : Camera) : List Action :=
  c.dtor.trace.drop c.trace.length

/-- Whether one of the vendor calls of the constructor reported an error. -/
def VendorOutcomes.anyError (o : VendorOutcomes) : Bool :=
  o.getCameraFromSerialNumber != PGRERROR_OK || o.connect != PGRERROR_OK ||
    o.getCameraInfo != PGRERROR_OK || o.getGigEImageSettingsInfo != PGRERROR_OK ||
    o.setGigEImageSettings != PGRERROR_OK || o.startCapture != PGRERROR_OK

/-! ## Concrete inputs -/

/-- A frame of 640 by 480 as the loop builds it. -/
def frame640 : Image :=
  { Image.new with width := 640, height := 480, step := 1920, encoding := RGB8 }

/-- A calibration with `K[0]` the double 512.0, recorded for `w` by `h`. -/
def calibrated (w h : Nat) : CameraInfo :=
  { CameraInfo.new with
    width := w
    height := h
    K := fun i => if i = 0 then ⟨0x4080000000000000⟩ else Double.zero }

/-- A converted buffer of 640 by 480 with no payload. -/
def buffer640 : FCImage := { rows := 480, cols := 640, stride := 1920, data := [] }

/-- A pass in which retrieval and conversion both succeed. -/
def goodPass : Iteration :=
  { ok := true
    retrieveError := PGRERROR_OK
    retrieved := buffer640
    now := { sec := 100, nsec := 5 }
    convertError := PGRERROR_OK
    converted := buffer640
    snapshot := calibrated 1280 720 }

/-- Every vendor call succeeds but `StartCapture`, which reports an error. -/
def startCaptureFails : VendorOutcomes :=
  { getCameraFromSerialNumber := 0
    connect := 0
    getCameraInfo := 0
    getGigEImageSettingsInfo := 0
    setGigEImageSettings := 0
    startCapture := 1 }

/-- No parameter is set. -/
def noParams : Params :=
  { camera_info_url := none, serial := none, fps := none, skip_frames := none,
    width := none, height := none, frame_id := none }

/-- Members before the constructor body runs, here all zero. -/
def rawCamera : Camera :=
  { width := 0, height := 0, fps := 0, skip_frames := 0, frame := "", rotate := false,
    serial := 0, ok := false, threadStarted := false, threadJoined := false, trace := [] }

/-- The worker as `feedImages` starts it. -/
def freshWorker : Worker :=
  { pair_id := 0, rawImage := FCImage.new, convertedImage := FCImage.new }

/-- The image the loop builds from `goodPass` under the frame id "camera". -/
def goodImage : Image :=
  { header := { seq := 0, stamp := { sec := 100, nsec := 5 }, frame_id := "camera" }
    height := 480
    width := 640
    encoding := RGB8
    is_bigendian := 0
    step := 1920
    data := [] }

/-- Whether `a` occurs in the list before the first `b`. -/
def occursBefore (a b : Action) : List Action → Bool
  | [] => false
  | x :: xs => if x = b then false else if x = a then true else occursBefore a b xs

/-! ## Lemmas on the two tests and on `resolveInfo` -/

theorem unpopulated_eq_not_populated (info : CameraInfo) :
    info.unpopulated = !info.populated := by
  simp [CameraInfo.unpopulated, CameraInfo.populated, Double.opNe]

theorem new_populated : CameraInfo.new.populated = false := by decide

theorem resolveInfo_of_mismatch (s : CameraInfo) (image : Image)
    (hp : s.populated = true) (hd : s.width ≠ image.width ∨ s.height ≠ image.height) :
    resolveInfo s image =
      { CameraInfo.new with width := image.width, height := image.height } := by
  have hc : (image.width != s.width || image.height != s.height) = true := by
    rcases hd with h | h
    · simp [bne_iff_ne, Ne.symm h]
    · simp [bne_iff_ne, Ne.symm h]
  simp [resolveInfo, hp, hc, unpopulated_eq_not_populated, new_populated]

theorem resolveInfo_of_match (s : CameraInfo) (image : Image)
    (hp : s.populated = true) (hw : s.width = image.width) (hh : s.height = image.height) :
    resolveInfo s image = s := by
  simp [resolveInfo, hp, hw, hh, unpopulated_eq_not_populated]

theorem resolveInfo_of_unpopulated (s : CameraInfo) (image : Image)
    (hp : s.populated = false) :
    resolveInfo s image = { s with width := image.width, height := image.height } := by
  simp [resolveInfo, hp, unpopulated_eq_not_populated]

/-! ## `Camera::sendInfo`: the emitted info -/

/-- C1: whatever snapshot the calibration store returns and whatever the frame,
the info `sendInfo` publishes has the width and the height of the frame. -/
theorem sendInfo_dimensions_are_frame (frame : String) (s : CameraInfo) (image : Image)
    (time : Time) :
    (sendInfo frame s image time).width = image.width ∧
      (sendInfo frame s image time).height = image.height := by
  cases hp : s.populated
  · simp [sendInfo, resolveInfo_of_unpopulated s image hp]
  · by_cases hw : s.width = image.width
    · by_cases hh : s.height = image.height
      · simp [sendInfo, resolveInfo_of_match s image hp hw hh, hw, hh]
      · simp [sendInfo, resolveInfo_of_mismatch s image hp (Or.inr hh)]
    · simp [sendInfo, resolveInfo_of_mismatch s image hp (Or.inl hw)]

/-- C2: a populated snapshot whose width or height differs from the frame's is
thrown away: the published info is the empty `CameraInfo` with the frame's
width and height and the new stamp and frame id, so it is unpopulated and its
`K[0]` is `0.0`. -/
theorem sendInfo_mismatch_gives_default (frame : String) (s : CameraInfo) (image : Image)
    (time : Time) (hp : s.populated = true)
    (hd : s.width ≠ image.width ∨ s.height ≠ image.height) :
    sendInfo frame s image time =
        { CameraInfo.new with
          width := image.width
          height := image.height
          header := { seq := 0, stamp := time, frame_id := frame } } ∧
      (sendInfo frame s image time).K 0 = Double.zero ∧
      (sendInfo frame s image time).populated = false ∧
      (sendInfo frame s image time).width = image.width ∧
      (sendInfo frame s image time).height = image.height := by
  rw [sendInfo, resolveInfo_of_mismatch s image hp hd]
  exact ⟨rfl, rfl, new_populated, rfl, rfl⟩

/-- The scenario of C2: frame 640 by 480, populated snapshot for 1280 by 720. -/
theorem sendInfo_mismatch_gives_default_witness :
    (calibrated 1280 720).populated = true ∧
      sendInfo "camera" (calibrated 1280 720) frame640 ⟨7, 9⟩ =
        { CameraInfo.new with
          width := 640
          height := 480
          header := { seq := 0, stamp := ⟨7, 9⟩, frame_id := "camera" } } ∧
      (sendInfo "camera" (calibrated 1280 720) frame640 ⟨7, 9⟩).populated = false :=
  have h := sendInfo_mismatch_gives_default "camera" (calibrated 1280 720) frame640 ⟨7, 9⟩
    (by decide) (Or.inl (by decide))
  ⟨by decide, h.1, h.2.2.1⟩

/-- C3: a populated snapshot whose width and height equal the frame's is published
with only `header.stamp` and `header.frame_id` overwritten: `K`, and with it
`K[0]`, the width, the height and every other field are the snapshot's. -/
theorem sendInfo_match_keeps_calibration (frame : String) (s : CameraInfo) (image : Image)
    (time : Time) (hp : s.populated = true)
    (hw : s.width = image.width) (hh : s.height = image.height) :
    sendInfo frame s image time =
        { s with header := { s.header with stamp := time, frame_id := frame } } ∧
      (sendInfo frame s image time).K = s.K ∧
      (sendInfo frame s image time).K 0 = s.K 0 ∧
      (sendInfo frame s image time).width = s.width ∧
      (sendInfo frame s image time).height = s.height ∧
      (sendInfo frame s image time).populated = true := by
  rw [sendInfo, resolveInfo_of_match s image hp hw hh]
  exact ⟨rfl, rfl, rfl, rfl, rfl, hp⟩

/-- The scenario of C3: frame 640 by 480, populated snapshot for 640 by 480. -/
theorem sendInfo_match_keeps_calibration_witness :
    (calibrated 640 480).populated = true ∧
      (sendInfo "camera" (calibrated 640 480) frame640 ⟨7, 9⟩).K 0 = (calibrated 640 480).K 0 ∧
      (sendInfo "camera" (calibrated 640 480) frame640 ⟨7, 9⟩).width = 640 :=
  have h := sendInfo_match_keeps_calibration "camera" (calibrated 640 480) frame640 ⟨7, 9⟩
    (by decide) (by decide) (by decide)
  ⟨by decide, h.2.2.1, h.2.2.2.1⟩

/-- C4: an unpopulated snapshot, whatever width and height it records, is
published with the frame's width and height and is still unpopulated (its `K`
is untouched). -/
theorem sendInfo_unpopulated_fills_dimensions (frame : String) (s : CameraInfo)
    (image : Image) (time : Time) (hu : s.unpopulated = true) :
    (sendInfo frame s image time).width = image.width ∧
      (sendInfo frame s image time).height = image.height ∧
      (sendInfo frame s image time).unpopulated = true ∧
      (sendInfo frame s image time).populated = false ∧
      (sendInfo frame s image time).K = s.K := by
  have hp : s.populated = false := by
    rw [unpopulated_eq_not_populated] at hu
    simpa using hu
  rw [sendInfo, resolveInfo_of_unpopulated s image hp]
  exact ⟨rfl, rfl, hu, hp, rfl⟩

/-- The scenario of C4: frame 640 by 480, unpopulated snapshot recording 1280 by 720. -/
theorem sendInfo_unpopulated_fills_dimensions_witness :
    ({ CameraInfo.new with width := 1280, height := 720 } : CameraInfo).unpopulated = true ∧
      (sendInfo "camera" { CameraInfo.new with width := 1280, height := 720 } frame640
        ⟨7, 9⟩).width = 640 ∧
      (sendInfo "camera" { CameraInfo.new with width := 1280, height := 720 } frame640
        ⟨7, 9⟩).height = 480 ∧
      (sendInfo "camera" { CameraInfo.new with width := 1280, height := 720 } frame640
        ⟨7, 9⟩).populated = false :=
  have h := sendInfo_unpopulated_fills_dimensions "camera"
    { CameraInfo.new with width := 1280, height := 720 } frame640 ⟨7, 9⟩ (by decide)
  ⟨by decide, h.1, h.2.1, h.2.2.2.1⟩

/-- C10: resolving an already resolved snapshot against the same frame changes
nothing, and the resolved snapshot is populated exactly when the snapshot was
populated with the width and the height of the frame. -/
theorem resolveInfo_idempotent (s : CameraInfo) (image : Image) :
    resolveInfo (resolveInfo s image) image = resolveInfo s image ∧
      ((resolveInfo s image).populated = true ↔
        (s.populated = true ∧ s.width = image.width ∧ s.height = image.height)) := by
  cases hp : s.populated
  · rw [resolveInfo_of_unpopulated s image hp]
    refine ⟨?_, ?_⟩
    · exact resolveInfo_of_unpopulated _ image hp
    · have h : ({ s with width := image.width, height := image.height } : CameraInfo).populated
          = false := hp
      simp [h]
  · by_cases hw : s.width = image.width
    · by_cases hh : s.height = image.height
      · rw [resolveInfo_of_match s image hp hw hh]
        exact ⟨resolveInfo_of_match s image hp hw hh, by simp [hp, hw, hh]⟩
      · rw [resolveInfo_of_mismatch s image hp (Or.inr hh)]
        refine ⟨resolveInfo_of_unpopulated _ image new_populated, ?_⟩
        have h : ({ CameraInfo.new with width := image.width, height := image.height } :
            CameraInfo).populated = false := new_populated
        simp [h, hh]
    · rw [resolveInfo_of_mismatch s image hp (Or.inl hw)]
      refine ⟨resolveInfo_of_unpopulated _ image new_populated, ?_⟩
      have h : ({ CameraInfo.new with width := image.width, height := image.height } :
          CameraInfo).populated = false := new_populated
      simp [h, hw]

/-! ## `Camera::feedImages` -/

theorem loopBody_of_retrieve_error (frame : String) (env : Iteration) (w : Worker)
    (h : env.retrieveError ≠ PGRERROR_OK) :
    loopBody frame env w = ({ w with rawImage := env.retrieved }, []) := by
  simp [loopBody, h]

theorem loopBody_of_convert_error (frame : String) (env : Iteration) (w : Worker)
    (hr : env.retrieveError = PGRERROR_OK) (hc : env.convertError ≠ PGRERROR_OK) :
    loopBody frame env w =
      ({ w with rawImage := env.retrieved, convertedImage := env.converted }, []) := by
  simp [loopBody, hr, hc]

theorem loopBody_of_success (frame : String) (env : Iteration) (w : Worker)
    (hr : env.retrieveError = PGRERROR_OK) (hc : env.convertError = PGRERROR_OK) :
    loopBody frame env w =
      ({ w with rawImage := env.retrieved, convertedImage := env.converted },
        [Msg.image
            { header := { seq := w.pair_id, stamp := env.now, frame_id := frame }
              height := env.converted.rows
              width := env.converted.cols
              encoding := RGB8
              is_bigendian := 0
              step := env.converted.stride
              data := env.converted.data },
          Msg.info (sendInfo frame env.snapshot
            { header := { seq := w.pair_id, stamp := env.now, frame_id := frame }
              height := env.converted.rows
              width := env.converted.cols
              encoding := RGB8
              is_bigendian := 0
              step := env.converted.stride
              data := env.converted.data } env.now)]) := by
  simp [loopBody, hr, hc, Image.new]

theorem sendInfo_header (frame : String) (s : CameraInfo) (image : Image) (time : Time) :
    (sendInfo frame s image time).header.stamp = time ∧
      (sendInfo frame s image time).header.frame_id = frame :=
  ⟨rfl, rfl⟩

/-- C5: when one pass of the loop of `feedImages` publishes an image and an info,
the info carries the image's `header.stamp` and the image's `header.frame_id`,
and that frame id is the member `frame`; this for every snapshot the store
returns. -/
theorem feedImages_pair_shares_stamp_and_frame (frame : String) (env : Iteration)
    (w : Worker) (image : Image) (info : CameraInfo)
    (hi : Msg.image image ∈ (loopBody frame env w).2)
    (hj : Msg.info info ∈ (loopBody frame env w).2) :
    info.header.stamp = image.header.stamp ∧
      info.header.frame_id = image.header.frame_id ∧
      image.header.frame_id = frame := by
  by_cases hr : env.retrieveError = PGRERROR_OK
  · by_cases hc : env.convertError = PGRERROR_OK
    · rw [loopBody_of_success frame env w hr hc] at hi hj
      simp only [List.mem_cons, List.mem_singleton, Msg.image.injEq, Msg.info.injEq,
        List.not_mem_nil, reduceCtorEq, or_false, false_or] at hi hj
      subst hi
      subst hj
      exact ⟨rfl, rfl, rfl⟩
    · rw [loopBody_of_convert_error frame env w hr hc] at hi
      simp at hi
  · rw [loopBody_of_retrieve_error frame env w hr] at hi
    simp at hi

/-- A pass that succeeds publishes `goodImage` and its info, with one stamp. -/
theorem feedImages_pair_shares_stamp_and_frame_witness :
    Msg.image goodImage ∈ (loopBody "camera" goodPass freshWorker).2 ∧
      (sendInfo "camera" (calibrated 1280 720) goodImage ⟨100, 5⟩).header.stamp =
        goodImage.header.stamp ∧
      (sendInfo "camera" (calibrated 1280 720) goodImage ⟨100, 5⟩).header.frame_id =
        goodImage.header.frame_id :=
  have hi : Msg.image goodImage ∈ (loopBody "camera" goodPass freshWorker).2 :=
    List.Mem.head _
  have hj : Msg.info (sendInfo "camera" (calibrated 1280 720) goodImage ⟨100, 5⟩) ∈
      (loopBody "camera" goodPass freshWorker).2 :=
    List.Mem.tail _ (List.Mem.head _)
  have h := feedImages_pair_shares_stamp_and_frame "camera" goodPass freshWorker goodImage
    (sendInfo "camera" (calibrated 1280 720) goodImage ⟨100, 5⟩) hi hj
  ⟨hi, h.1, h.2.1⟩

theorem imageSeqs_append (xs ys : List Msg) :
    imageSeqs (xs ++ ys) = imageSeqs xs ++ imageSeqs ys := by
  induction xs with
  | nil => rfl
  | cons x xs ih =>
    cases x with
    | image m => simp [imageSeqs, ih]
    | info m => simp [imageSeqs, ih]

theorem loopBody_pair_id (frame : String) (env : Iteration) (w : Worker) :
    (loopBody frame env w).1.pair_id = w.pair_id := by
  by_cases hr : env.retrieveError = PGRERROR_OK
  · by_cases hc : env.convertError = PGRERROR_OK
    · rw [loopBody_of_success frame env w hr hc]
    · rw [loopBody_of_convert_error frame env w hr hc]
  · rw [loopBody_of_retrieve_error frame env w hr]

theorem imageSeqs_loopBody (frame : String) (env : Iteration) (w : Worker) :
    ∀ n ∈ imageSeqs (loopBody frame env w).2, n = w.pair_id := by
  by_cases hr : env.retrieveError = PGRERROR_OK
  · by_cases hc : env.convertError = PGRERROR_OK
    · rw [loopBody_of_success frame env w hr hc]
      simp [imageSeqs]
    · rw [loopBody_of_convert_error frame env w hr hc]
      simp [imageSeqs]
  · rw [loopBody_of_retrieve_error frame env w hr]
    simp [imageSeqs]

/-- Every image the loop publishes carries the value `pair_id` had on entry, and
the loop leaves `pair_id` as it was, whatever the script. -/
theorem feedImagesLoop_seq_constant (frame : String) :
    ∀ (script : List Iteration) (w : Worker),
      (feedImagesLoop frame script w).worker.pair_id = w.pair_id ∧
        ∀ n ∈ imageSeqs (feedImagesLoop frame script w).published, n = w.pair_id
  | [], w => by simp [feedImagesLoop, imageSeqs]
  | env :: rest, w => by
    cases hk : env.ok
    · simp [feedImagesLoop, hk, imageSeqs]
    · have ih := feedImagesLoop_seq_constant frame rest (loopBody frame env w).1
      rw [loopBody_pair_id] at ih
      refine ⟨by simpa [feedImagesLoop, hk] using ih.1, ?_⟩
      intro n hn
      simp only [feedImagesLoop, hk, if_true, imageSeqs_append, List.mem_append] at hn
      rcases hn with h | h
      · exact imageSeqs_loopBody frame env w n h
      · exact ih.2 n h

/-- Every image `feedImages` publishes has `header.seq` 0, whatever the script. -/
theorem feedImages_every_seq_zero (frame : String) (script : List Iteration) :
    ∀ n ∈ imageSeqs (feedImages frame script).published, n = 0 :=
  (feedImagesLoop_seq_constant frame script _).2

/-- C6: two passes that both succeed publish two images whose `header.seq` are
0 and 0; `pair_id` is copied into `header.seq` and never incremented. -/
theorem feedImages_seq_stays_zero :
    imageSeqs (feedImages "camera" [goodPass, goodPass]).published = [0, 0] ∧
      (feedImages "camera" [goodPass, goodPass]).worker.pair_id = 0 := by
  decide

theorem mem_of_occursBefore (a b : Action) :
    ∀ (pre post : List Action), occursBefore a b (pre ++ b :: post) = true → a ∈ pre
  | [], post, h => by simp [occursBefore] at h
  | x :: pre, post, h => by
    by_cases hb : x = b
    · simp [occursBefore, hb] at h
    · by_cases ha : x = a
      · simp [ha]
      · have h' : occursBefore a b (pre ++ b :: post) = true := by
          simpa [occursBefore, hb, ha] using h
        exact List.mem_cons_of_mem _ (mem_of_occursBefore a b pre post h')

theorem ctor_trace (garbage : Camera) (params : Params) (o : VendorOutcomes) :
    (Camera.ctor garbage params o).trace =
      [Action.loadCameraInfo, Action.advertise, Action.advertise,
        Action.GetCameraFromSerialNumber, Action.Connect, Action.GetCameraInfo,
        Action.PrintCameraInfo, Action.GetGigEImageSettingsInfo,
        Action.SetGigEImageSettings, Action.StartCapture, Action.writeOk true,
        Action.startThread] := by
  simp [Camera.ctor, Camera.log]

theorem dtor_trace (c : Camera) :
    c.dtor.trace =
      c.trace ++ [Action.writeOk false, Action.join, Action.StopCapture, Action.Disconnect] := by
  simp [Camera.dtor, Camera.log]

theorem teardownActions_eq (c : Camera) :
    c.teardownActions =
      [Action.writeOk false, Action.join, Action.StopCapture, Action.Disconnect] := by
  simp [Camera.teardownActions, dtor_trace]

/-- C7, as the code has it: whatever the vendor calls report, the constructor
ends with `ok` true and the worker started; `ok` is written once, after the call
of `StartCapture`, and the worker is started after that write. -/
theorem ctor_always_sets_ok_and_starts_worker (garbage : Camera) (params : Params)
    (o : VendorOutcomes) :
    (Camera.ctor garbage params o).ok = true ∧
      (Camera.ctor garbage params o).threadStarted = true ∧
      (Camera.ctor garbage params o).trace.count (Action.writeOk true) = 1 ∧
      (Camera.ctor garbage params o).trace.count Action.startThread = 1 ∧
      (∀ pre post : List Action,
        (Camera.ctor garbage params o).trace = pre ++ Action.writeOk true :: post →
          Action.StartCapture ∈ pre) ∧
      (∀ pre post : List Action,
        (Camera.ctor garbage params o).trace = pre ++ Action.startThread :: post →
          Action.writeOk true ∈ pre) := by
  refine ⟨?_, ?_, ?_, ?_, ?_, ?_⟩
  · simp [Camera.ctor, Camera.log]
  · simp [Camera.ctor, Camera.log]
  · rw [ctor_trace]; decide
  · rw [ctor_trace]; decide
  · intro pre post h
    refine mem_of_occursBefore Action.StartCapture (Action.writeOk true) pre post ?_
    rw [← h, ctor_trace]
    decide
  · intro pre post h
    refine mem_of_occursBefore (Action.writeOk true) Action.startThread pre post ?_
    rw [← h, ctor_trace]
    decide

/-- The log of the constructor when `StartCapture` fails, split at the write of `ok`. -/
theorem ctor_always_sets_ok_and_starts_worker_witness :
    (Camera.ctor rawCamera noParams startCaptureFails).trace =
        [Action.loadCameraInfo, Action.advertise, Action.advertise,
          Action.GetCameraFromSerialNumber, Action.Connect, Action.GetCameraInfo,
          Action.PrintCameraInfo, Action.GetGigEImageSettingsInfo,
          Action.SetGigEImageSettings, Action.StartCapture] ++
            Action.writeOk true :: [Action.startThread] ∧
      Action.StartCapture ∈
        [Action.loadCameraInfo, Action.advertise, Action.advertise,
          Action.GetCameraFromSerialNumber, Action.Connect, Action.GetCameraInfo,
          Action.PrintCameraInfo, Action.GetGigEImageSettingsInfo,
          Action.SetGigEImageSettings, Action.StartCapture] :=
  have hs : (Camera.ctor rawCamera noParams startCaptureFails).trace =
      [Action.loadCameraInfo, Action.advertise, Action.advertise,
        Action.GetCameraFromSerialNumber, Action.Connect, Action.GetCameraInfo,
        Action.PrintCameraInfo, Action.GetGigEImageSettingsInfo,
        Action.SetGigEImageSettings, Action.StartCapture] ++
          Action.writeOk true :: [Action.startThread] := by
    decide
  ⟨hs,
    (ctor_always_sets_ok_and_starts_worker rawCamera noParams startCaptureFails).2.2.2.2.1
      _ _ hs⟩

/-- C7, as stated, fails: `StartCapture` reports an error and the constructor
still sets `ok` true and starts the worker. -/
theorem ctor_sets_ok_after_failed_start :
    startCaptureFails.startCapture ≠ PGRERROR_OK ∧
      startCaptureFails.anyError = true ∧
      (Camera.ctor rawCamera noParams startCaptureFails).ok = true ∧
      (Camera.ctor rawCamera noParams startCaptureFails).threadStarted = true := by
  decide

/-- C8: the destructor adds to the log, in this order, the write of `ok` to
false, the join of the worker, `StopCapture` and `Disconnect`, each once; so in
every split of these actions at `StopCapture` the join and the write are in the
part before it, and `Disconnect` comes after `StopCapture`. -/
theorem dtor_joins_before_stopping_device (c : Camera) :
    c.dtor.trace =
        c.trace ++
          [Action.writeOk false, Action.join, Action.StopCapture, Action.Disconnect] ∧
      c.teardownActions.count Action.StopCapture = 1 ∧
      c.teardownActions.count Action.Disconnect = 1 ∧
      c.teardownActions.count Action.join = 1 ∧
      c.teardownActions.head? = some (Action.writeOk false) ∧
      (∀ pre post : List Action, c.teardownActions = pre ++ Action.join :: post →
        Action.writeOk false ∈ pre) ∧
      (∀ pre post : List Action, c.teardownActions = pre ++ Action.StopCapture :: post →
        Action.join ∈ pre ∧ Action.writeOk false ∈ pre) ∧
      (∀ pre post : List Action, c.teardownActions = pre ++ Action.Disconnect :: post →
        Action.StopCapture ∈ pre) ∧
      c.dtor.ok = false ∧ c.dtor.threadJoined = true := by
  refine ⟨dtor_trace c, ?_, ?_, ?_, ?_, ?_, ?_, ?_, ?_, ?_⟩
  · rw [teardownActions_eq]; decide
  · rw [teardownActions_eq]; decide
  · rw [teardownActions_eq]; decide
  · rw [teardownActions_eq]; rfl
  · intro pre post h
    refine mem_of_occursBefore (Action.writeOk false) Action.join pre post ?_
    rw [← h, teardownActions_eq]
    decide
  · intro pre post h
    constructor
    · refine mem_of_occursBefore Action.join Action.StopCapture pre post ?_
      rw [← h, teardownActions_eq]
      decide
    · refine mem_of_occursBefore (Action.writeOk false) Action.StopCapture pre post ?_
      rw [← h, teardownActions_eq]
      decide
  · intro pre post h
    refine mem_of_occursBefore Action.StopCapture Action.Disconnect pre post ?_
    rw [← h, teardownActions_eq]
    decide
  · simp [Camera.dtor, Camera.log]
  · simp [Camera.dtor, Camera.log]

/-- The destructor on a camera the constructor built, split at `StopCapture`. -/
theorem dtor_joins_before_stopping_device_witness :
    (Camera.ctor rawCamera noParams startCaptureFails).teardownActions =
        [Action.writeOk false, Action.join] ++ Action.StopCapture :: [Action.Disconnect] ∧
      Action.join ∈ [Action.writeOk false, Action.join] ∧
      Action.writeOk false ∈ [Action.writeOk false, Action.join] :=
  have hs : (Camera.ctor rawCamera noParams startCaptureFails).teardownActions =
      [Action.writeOk false, Action.join] ++ Action.StopCapture :: [Action.Disconnect] := by
    decide
  ⟨hs,
    (dtor_joins_before_stopping_device
      (Camera.ctor rawCamera noParams startCaptureFails)).2.2.2.2.2.2.1 _ _ hs⟩

end pgr_camera
